import Mathlib

/-!
Shallow embedding of the session-report ingestion pipeline of
`app/webhooks/session.py` (DaVinci backend): payload validation, claims
extraction, agent resolution, signal extraction, timestamp parsing, the
call-record / wallet / transaction write, and the commit-time outcomes.

Python machine values are modelled exactly: money as exact rationals
(`Decimal`), Python `int()` truncation toward zero, Python truthiness of
optional strings, `dict.get` with defaults over JSON-like values, and the
string manipulations (`split`, `in`, `replace`, slicing, base64 padding)
as structural functions over character lists.
-/

namespace Davinci

/-- JSON-like value, the shape of the loosely typed `analysis` payload and
of the values read out of it.  `null` plays the role of Python `None`. -/
inductive Json where
  | null : Json
  | bool : Bool → Json
  | num : ℚ → Json
  | str : String → Json
  | arr : List Json → Json
  | obj : List (String × Json) → Json

/-- Python truthiness of a JSON value (`if payload.analysis and ...`). -/
def Json.isTruthy : Json → Bool
  | .null => false
  | .bool b => b
  | .num q => decide (q ≠ 0)
  | .str s => s.data != []
  | .arr xs => !xs.isEmpty
  | .obj kvs => !kvs.isEmpty

/-- Python `isinstance(v, dict)`. -/
def Json.isObj : Json → Bool
  | .obj _ => true
  | _ => false

/-- Lookup in a JSON object, first binding wins (Python dict access). -/
def jsonLookup (kvs : List (String × Json)) (k : String) : Option Json :=
  (kvs.find? (fun kv => kv.1 == k)).map (fun kv => kv.2)

/-- Python `d.get(k, default)`: the default is used only when the key is
absent; a stored `null` (Python `None`) is returned as-is. -/
def pyGetD (kvs : List (String × Json)) (k : String) (d : Json) : Json :=
  (jsonLookup kvs k).getD d

/-- Python truthiness of an optional string (`if payload.agent_id:`). -/
def strTruthy : Option String → Bool
  | some s => s.data != []
  | none => false

/-- Python `a or b` on optional strings (`payload.caller_id or user_id`). -/
def pyOr (a b : Option String) : Option String :=
  if strTruthy a then a else b

/-- Python `int(x)` on a float: truncation toward zero, exact over ℚ. -/
def pyTrunc (q : ℚ) : ℤ := q.num.tdiv q.den

/-- Python `"." in s`. -/
def containsDot : List Char → Bool
  | [] => false
  | c :: cs => c == '.' || containsDot cs

/-- Python `s.split(".")`. -/
def splitDot : List Char → List (List Char)
  | [] => [[]]
  | c :: cs =>
    match splitDot cs with
    | [] => [[]]
    | t :: ts => if c == '.' then [] :: t :: ts else (c :: t) :: ts

/-- Python `s.replace('Z', '+00:00')` (every occurrence). -/
def replZ : List Char → List Char
  | [] => []
  | c :: cs =>
    if c == 'Z' then '+' :: '0' :: '0' :: ':' :: '0' :: '0' :: replZ cs
    else c :: replZ cs

/-- Timestamp normalization applied before ISO-8601 parsing
(`str(...).replace('Z', '+00:00')`). -/
def normTs (s : String) : String := String.mk (replZ s.data)

/-- Base64 padding of the JWT payload segment:
`payload_b64 += "=" * ((4 - len(payload_b64) % 4) % 4)`. -/
def b64pad (cs : List Char) : List Char :=
  cs ++ List.replicate ((4 - cs.length % 4) % 4) '='

/-- Agent directory row (`app.database.Agent`), as read by the webhook
(`agent_id`, `agent_name`, `tenant_id`, `wallet_id`) plus the `is_active`
flag the schema carries (set by `seed_agent.py`). -/
structure Agent where
  agent_id : String
  agent_name : String
  tenant_id : String
  wallet_id : Option String
  is_active : Bool
deriving Repr, DecidableEq

/-- Wallet row: balance is an exact decimal that may be void
(`wallet.balance or 0`). -/
structure Wallet where
  wallet_id : String
  tenant_id : String
  balance : Option ℚ
deriving Repr, DecidableEq

/-- Ledger entry, with the exact fields `ingest_session_report` sets. -/
structure Transaction where
  wallet_id : String
  tenant_id : String
  type : String
  amount_euros : ℚ
  description : String
  reference_id : String
deriving Repr, DecidableEq

/-- Derived behavioral/business signals (step 3 of the webhook).  Values
are the raw JSON read out of the analysis payload; `Json.null` is Python
`None`. -/
structure Signals where
  sentiment_score : Json
  frustration_velocity : Json
  agent_iq : Json
  avg_sentiment : Json
  correction_count : Json
  is_churn_risk : Json
  is_hot_lead : Json
  priority_level : Json

/-- Initial values of the signal variables (lines 143-150 of the source). -/
def defaultSignals : Signals :=
  { sentiment_score := .null
    frustration_velocity := .null
    agent_iq := .null
    avg_sentiment := .null
    correction_count := .num 0
    is_churn_risk := .bool false
    is_hot_lead := .bool false
    priority_level := .str "NORMAL" }

/-- Call record (`app.database.CallLog`), with the exact fields the
webhook writes; primary key is the session id. -/
structure CallLog where
  id : String
  agent_id : String
  start_time : ℤ
  end_time : Option ℤ
  duration_seconds : ℤ
  status : String
  caller_id : Option String
  ttft_ms : Option ℤ
  ttfc_ms : Option ℤ
  sentiment_score : Json
  frustration_velocity : Json
  agent_iq : Json
  avg_sentiment : Json
  correction_count : Json
  is_churn_risk : Json
  is_hot_lead : Json
  priority_level : Json
  cost_euros : ℚ

/-- Inbound payload after pydantic validation (`SessionReportPayload`). -/
structure SessionReportPayload where
  session_id : String
  user_id : Option String := some "anonymous"
  agent_name : Option String := none
  agent_id : Option String := none
  tenant_id : Option String := none
  start_time : Option String := none
  end_time : Option String := none
  duration_seconds : ℚ := 0
  total_turns : ℤ := 0
  avg_ttft_ms : ℚ := 0
  avg_ttfc_ms : ℚ := 0
  status : String := "completed"
  caller_id : Option String := none
  analysis : Option Json := none

/-- Wire-level inbound event, before pydantic validation.  Each field is
three-valued: `none` = absent from the JSON body, `some none` = JSON
`null`, `some (some v)` = present value (non-Optional fields cannot carry
`null`, so they are two-valued). -/
structure SessionReportWire where
  session_id : Option (Option String) := none
  user_id : Option (Option String) := none
  agent_name : Option (Option String) := none
  agent_id : Option (Option String) := none
  tenant_id : Option (Option String) := none
  start_time : Option (Option String) := none
  end_time : Option (Option String) := none
  duration_seconds : Option ℚ := none
  total_turns : Option ℤ := none
  avg_ttft_ms : Option ℚ := none
  avg_ttfc_ms : Option ℚ := none
  status : Option String := none
  caller_id : Option (Option String) := none
  analysis : Option (Option Json) := none

/-- Pydantic validation of `SessionReportPayload`: `session_id : str` is
required (absent or `null` is rejected) but any string, including the
empty one, passes; `user_id : Optional[str] = "anonymous"` defaults only
when the field is absent; the remaining Optional fields default to
`None`; `analysis : Optional[dict]` must be an object or `null`. -/
def validatePayload (w : SessionReportWire) : Option SessionReportPayload :=
  match w.session_id with
  | some (some sid) =>
    let analysisOk := match w.analysis with
      | some (some j) => j.isObj
      | _ => true
    if analysisOk then
      some
        { session_id := sid
          user_id := match w.user_id with
            | none => some "anonymous"
            | some v => v
          agent_name := w.agent_name.getD none
          agent_id := w.agent_id.getD none
          tenant_id := w.tenant_id.getD none
          start_time := w.start_time.getD none
          end_time := w.end_time.getD none
          duration_seconds := w.duration_seconds.getD 0
          total_turns := w.total_turns.getD 0
          avg_ttft_ms := w.avg_ttft_ms.getD 0
          avg_ttfc_ms := w.avg_ttfc_ms.getD 0
          status := w.status.getD "completed"
          caller_id := w.caller_id.getD none
          analysis := w.analysis.getD none }
    else none
  | _ => none

/-- Claim set recovered from a decoded JWT payload segment: the `sub` and
`tenant_id` entries the webhook reads. -/
structure JwtClaims where
  sub : Option String
  tenant_id : Option String

/-- External collaborators of the webhook, passed in explicitly.
`decodeSegment` — modelled from the spec: the base64-decode + JSON-parse
composite of §4.2 (Python stdlib; any exception is `none`).
`fromisoformat` — modelled from the spec: ISO-8601 parsing
(`datetime.fromisoformat`; `none` = `ValueError`).
`calculate_call_cost` — modelled from the spec: the external pricing
function of `rules.BILLING_RULES` (module not part of the webhook source).
`utcnow` — the ingestion time `datetime.utcnow()`. -/
structure Ext where
  decodeSegment : String → Option JwtClaims
  fromisoformat : String → Option ℤ
  calculate_call_cost : ℤ → ℚ
  utcnow : ℤ

/-- Claims-extraction step (lines 64-95): when the supplied user id looks
like a JWT (contains "." and is longer than 50 characters), decode its
second segment; a truthy `sub` replaces the user id and a truthy
`tenant_id` claim is adopted only when the payload's tenant id is falsy.
Any decode failure is silent.  Returns (user id, tenant id) after the
step. -/
def jwtStep (decodeSegment : String → Option JwtClaims)
    (user_id tenant_id : Option String) : Option String × Option String :=
  match user_id with
  | none => (none, tenant_id)
  | some u =>
    if strTruthy (some u) && containsDot u.data && decide (50 < u.length) then
      let parts := splitDot u.data
      if 2 ≤ parts.length then
        match decodeSegment (String.mk (b64pad (parts[1]?.getD []))) with
        | some claims =>
          let u2 : Option String := match claims.sub with
            | some r => if strTruthy (some r) then some r else some u
            | none => some u
          let t2 : Option String := match claims.tenant_id with
            | some rt =>
              if strTruthy (some rt) && !(strTruthy tenant_id) then some rt
              else tenant_id
            | none => tenant_id
          (u2, t2)
        | none => (some u, tenant_id)
      else (some u, tenant_id)
    else (some u, tenant_id)

/-- Step 4 of the agent-resolution chain (lines 125-130): first agent of
the known tenant, with no further filter. -/
def tenantFallback (agents : List Agent) (tenant_id : Option String) :
    Option Agent :=
  if strTruthy tenant_id then
    agents.find? (fun a => a.tenant_id == tenant_id.getD "")
  else none

/-- Step 1 of the chain (lines 99-103): exact match on a truthy agent
id. -/
def agentIdLookup (agents : List Agent) (agent_id : Option String) :
    Option Agent :=
  if strTruthy agent_id then
    agents.find? (fun a => a.agent_id == agent_id.getD "")
  else none

/-- Step 2 of the chain (lines 106-116): match on agent name AND tenant
id, attempted only when the tenant id is truthy. -/
def nameTenantLookup (agents : List Agent)
    (agent_name tenant_id : Option String) : Option Agent :=
  if strTruthy tenant_id then
    agents.find? (fun a =>
      a.agent_name == agent_name.getD "" && a.tenant_id == tenant_id.getD "")
  else none

/-- Step 3 of the chain (lines 118-123): match on agent name alone. -/
def nameLookup (agents : List Agent) (agent_name : Option String) :
    Option Agent :=
  agents.find? (fun a => a.agent_name == agent_name.getD "")

/-- Agent resolution chain (lines 97-134): exact agent id, then agent
name AND tenant id, then agent name alone, then any agent of the tenant;
each step runs only if every earlier step failed. -/
def resolveAgent (agents : List Agent)
    (agent_id agent_name tenant_id : Option String) : Option Agent :=
  match agentIdLookup agents agent_id with
  | some a => some a
  | none =>
    if strTruthy agent_name then
      match nameTenantLookup agents agent_name tenant_id with
      | some a => some a
      | none =>
        match nameLookup agents agent_name with
        | some a => some a
        | none => tenantFallback agents tenant_id
    else tenantFallback agents tenant_id

/-- Signal extraction (lines 142-171): defensive reads over the analysis
payload; every variable keeps its default when the analysis, or the
`metrics` / `business_signals` entry, is falsy, absent or not an object.
Total by construction — no exception can propagate. -/
def extractSignals (analysis : Option Json) : Signals :=
  match analysis with
  | some j =>
    if j.isTruthy && j.isObj then
      match j with
      | .obj kvs =>
        let s1 : Signals :=
          match pyGetD kvs "metrics" (.obj []) with
          | .obj m =>
            { defaultSignals with
              frustration_velocity := pyGetD m "frustration_velocity" .null
              agent_iq := pyGetD m "agent_iq" .null
              avg_sentiment := pyGetD m "avg_sentiment" .null
              correction_count := pyGetD m "correction_count" (.num 0) }
          | _ => defaultSignals
        match pyGetD kvs "business_signals" (.obj []) with
        | .obj b =>
          { s1 with
            sentiment_score := pyGetD b "sentiment_score" .null
            is_churn_risk := pyGetD b "is_churn_risk" (.bool false)
            is_hot_lead := pyGetD b "is_hot_lead" (.bool false)
            priority_level := pyGetD b "priority_level" (.str "NORMAL") }
        | _ => s1
      | _ => defaultSignals
    else defaultSignals
  | none => defaultSignals

/-- Timestamp parsing (lines 173-186), mirroring the Python try/except:
if either supplied timestamp fails to parse, the handler sets the start
time to the ingestion time and the end time is left unset; an absent or
falsy start time also defaults to the ingestion time. -/
def parseTimes (fromisoformat : String → Option ℤ) (now : ℤ)
    (st et : Option String) : ℤ × Option ℤ :=
  let stv : Option (Option ℤ) :=
    if strTruthy st then (fromisoformat (normTs (st.getD ""))).map some
    else some none
  match stv with
  | none => (now, none)
  | some stParsed =>
    let etv : Option (Option ℤ) :=
      if strTruthy et then (fromisoformat (normTs (et.getD ""))).map some
      else some none
    match etv with
    | none => (now, none)
    | some etParsed => (stParsed.getD now, etParsed)

/-- Construction of the call record (lines 188-208), given the resolved
agent and the user id produced by the claims-extraction step. -/
def buildCallLog (ext : Ext) (p : SessionReportPayload) (agent : Agent)
    (user_id : Option String) : CallLog :=
  let duration_secs := pyTrunc p.duration_seconds
  let cost := ext.calculate_call_cost duration_secs
  let sig := extractSignals p.analysis
  let ts := parseTimes ext.fromisoformat ext.utcnow p.start_time p.end_time
  { id := p.session_id
    agent_id := agent.agent_id
    start_time := ts.1
    end_time := ts.2
    duration_seconds := duration_secs
    status := p.status
    caller_id := pyOr p.caller_id user_id
    ttft_ms := if p.avg_ttft_ms = 0 then none else some (pyTrunc p.avg_ttft_ms)
    ttfc_ms := if p.avg_ttfc_ms = 0 then none else some (pyTrunc p.avg_ttfc_ms)
    sentiment_score := sig.sentiment_score
    frustration_velocity := sig.frustration_velocity
    agent_iq := sig.agent_iq
    avg_sentiment := sig.avg_sentiment
    correction_count := sig.correction_count
    is_churn_risk := sig.is_churn_risk
    is_hot_lead := sig.is_hot_lead
    priority_level := sig.priority_level
    cost_euros := cost }

/-- Persistent store visible to the webhook: agent directory, call-record
store, ledger (wallets and transactions). -/
structure DB where
  agents : List Agent
  callLogs : List CallLog
  wallets : List Wallet
  transactions : List Transaction

/-- Session-id slice used in the transaction description
(`payload.session_id[:12]`). -/
def sidSlice (sid : String) : String := String.mk (sid.data.take 12)

/-- Staged state of the database transaction just before commit (lines
188-230): the call record is added; if the agent's wallet id is truthy
and the wallet row exists, its balance is debited and a deduction ledger
entry is appended. -/
def stage (db : DB) (agent : Agent) (cost : ℚ) (cl : CallLog)
    (sid : String) (dur : ℤ) : DB :=
  if strTruthy agent.wallet_id then
    match db.wallets.find? (fun w => w.wallet_id == agent.wallet_id.getD "") with
    | some wallet =>
      { agents := db.agents
        callLogs := db.callLogs ++ [cl]
        wallets := db.wallets.map (fun w =>
          if w.wallet_id == agent.wallet_id.getD "" then
            { w with balance := some (wallet.balance.getD 0 - cost) }
          else w)
        transactions := db.transactions ++
          [{ wallet_id := wallet.wallet_id
             tenant_id := agent.tenant_id
             type := "deduction"
             amount_euros := -cost
             description := "Call " ++ sidSlice sid ++ "... (" ++ toString dur ++ "s)"
             reference_id := sid }] }
    | none => { db with callLogs := db.callLogs ++ [cl] }
  else { db with callLogs := db.callLogs ++ [cl] }

/-- Commit outcome injected at the transaction boundary.  Modelled from
the spec: the storage layer (`app.database`, not part of the webhook
source) enforces a uniqueness constraint on the call-record key, and
`db.commit()` either succeeds, raises `IntegrityError` (a concurrent
duplicate raced past the advisory check), or raises another persistence
error; both failures roll the whole transaction back. -/
inductive CommitFault where
  | ok : CommitFault
  | integrity : CommitFault
  | otherError : CommitFault
deriving Repr, DecidableEq

/-- Response of the webhook: the two JSON bodies and the two
`HTTPException` classes it raises (404 carries the session id in its
detail string, 500 is opaque). -/
inductive IngestResult where
  | ingested : String → String → ℚ → IngestResult
  | duplicate : String → IngestResult
  | notFound : String → IngestResult
  | serverError : IngestResult
deriving Repr

/-- Orchestrator `ingest_session_report` (lines 40-258): advisory
duplicate pre-check, claims extraction, agent resolution (404 on
failure), cost / signals / timestamps, staged write, then commit —
`IntegrityError` rolls back and returns `duplicate`, any other
persistence error rolls back and raises 500, success applies the staged
state. -/
def ingest_session_report (ext : Ext) (fault : CommitFault) (db : DB)
    (p : SessionReportPayload) : IngestResult × DB :=
  match db.callLogs.find? (fun cl => cl.id == p.session_id) with
  | some _ => (.duplicate p.session_id, db)
  | none =>
    let ids := jwtStep ext.decodeSegment p.user_id p.tenant_id
    match resolveAgent db.agents p.agent_id p.agent_name ids.2 with
    | none => (.notFound p.session_id, db)
    | some agent =>
      let duration_secs := pyTrunc p.duration_seconds
      let cost := ext.calculate_call_cost duration_secs
      let cl := buildCallLog ext p agent ids.1
      let staged := stage db agent cost cl p.session_id duration_secs
      match fault with
      | .integrity => (.duplicate p.session_id, db)
      | .otherError => (.serverError, db)
      | .ok => (.ingested p.session_id agent.agent_id cost, staged)

/-! ### Concrete fixtures used by the witnesses and counterexamples -/

/-- External collaborators whose decode and parse always fail and whose
pricing is the zero function. -/
def zeroExt : Ext where
  decodeSegment := fun _ => none
  fromisoformat := fun _ => none
  calculate_call_cost := fun _ => 0
  utcnow := 0

/-- Call record already persisted under session id "s1". -/
def exLog : CallLog where
  id := "s1"
  agent_id := "a1"
  start_time := 0
  end_time := none
  duration_seconds := 0
  status := "completed"
  caller_id := none
  ttft_ms := none
  ttfc_ms := none
  sentiment_score := .null
  frustration_velocity := .null
  agent_iq := .null
  avg_sentiment := .null
  correction_count := .num 0
  is_churn_risk := .bool false
  is_hot_lead := .bool false
  priority_level := .str "NORMAL"
  cost_euros := 0

/-- Agent "a1" of tenant "t1" holding wallet "w1". -/
def exAgent : Agent where
  agent_id := "a1"
  agent_name := "alpha"
  tenant_id := "t1"
  wallet_id := some "w1"
  is_active := true

/-- Inactive agent of tenant "t9". -/
def exInactiveAgent : Agent where
  agent_id := "a9"
  agent_name := "idle"
  tenant_id := "t9"
  wallet_id := none
  is_active := false

/-- Agent named "alpha" in a different tenant "t2", listed first in the
directory. -/
def exAgentOtherTenant : Agent where
  agent_id := "a2"
  agent_name := "alpha"
  tenant_id := "t2"
  wallet_id := none
  is_active := true

/-- Wallet "w1" of tenant "t1" holding 10 euros. -/
def exWallet : Wallet where
  wallet_id := "w1"
  tenant_id := "t1"
  balance := some 10

/-- Store with one agent, its wallet, and an already-persisted call
record for "s1". -/
def exDB : DB where
  agents := [exAgent]
  callLogs := [exLog]
  wallets := [exWallet]
  transactions := []

/-- Store with one agent and its wallet and no call records. -/
def exDBempty : DB where
  agents := [exAgent]
  callLogs := []
  wallets := [exWallet]
  transactions := []

/-- Payload that only carries session id "s1" and the matching agent
id. -/
def exPayload : SessionReportPayload where
  session_id := "s1"
  agent_id := some "a1"

/-- External collaborators with the spec's example pricing rate of 0.25
euros per minute (1/240 euro per second). -/
def priceExt : Ext where
  decodeSegment := fun _ => none
  fromisoformat := fun _ => none
  calculate_call_cost := fun d => (d : ℚ) / 240
  utcnow := 0

/-- Payload of the spec's worked example: session "s1", agent "a1", 125
seconds. -/
def exPayload125 : SessionReportPayload where
  session_id := "s1"
  agent_id := some "a1"
  duration_seconds := 125

/-- Identity field that passes the claims-token heuristic: it contains a
"." separator and is 55 characters long. -/
def longUid : String := "user.aaaaaaaaaaaaaaaaaaaaaaaaaaaaaaaaaaaaaaaaaaaaaaaaaa"

/-- Claim-set decode that always succeeds, recovering user "real-user"
of tenant "tJ". -/
def jwtOkDecode : String → Option JwtClaims :=
  fun _ => some { sub := some "real-user", tenant_id := some "tJ" }

/-- Wire event carrying an empty session id and a matching agent id. -/
def emptySidWire : SessionReportWire where
  session_id := some (some "")
  agent_id := some (some "a1")

/-- Validated payload of `emptySidWire`. -/
def emptySidPayload : SessionReportPayload where
  session_id := ""
  agent_id := some "a1"

/-- Payload carrying an unparseable start timestamp. -/
def exPayloadBadTs : SessionReportPayload where
  session_id := "s1"
  agent_id := some "a1"
  start_time := some "not-a-timestamp"

/-- Payload carrying an explicit caller id. -/
def exPayloadCaller : SessionReportPayload where
  session_id := "s1"
  agent_id := some "a1"
  caller_id := some "cX"

/-! ### Helper lemmas -/

/-- A split always yields at least one segment. -/
theorem splitDot_pos (cs : List Char) : 1 ≤ (splitDot cs).length := by
  induction cs with
  | nil => simp [splitDot]
  | cons c cs ih =>
    simp only [splitDot]
    cases h : splitDot cs with
    | nil => simp
    | cons t ts =>
      by_cases hc : (c == '.') = true <;> simp [hc]

/-- A string containing "." splits into at least two segments. -/
theorem splitDot_length_of_dot (cs : List Char) (h : containsDot cs = true) :
    2 ≤ (splitDot cs).length := by
  induction cs with
  | nil => cases h
  | cons c cs ih =>
    simp only [containsDot, Bool.or_eq_true] at h
    simp only [splitDot]
    cases hsp : splitDot cs with
    | nil =>
      have := splitDot_pos cs
      rw [hsp] at this
      cases this
    | cons t ts =>
      by_cases hc : (c == '.') = true
      · simp [hc]
      · have h2 : containsDot cs = true := by
          cases h with
          | inl h => exact absurd h hc
          | inr h => exact h
        have h3 := ih h2
        rw [hsp] at h3
        simp only [List.length_cons] at h3
        show 2 ≤ (if (c == '.') = true then [] :: t :: ts else (c :: t) :: ts).length
        rw [if_neg hc]
        simp only [List.length_cons]
        omega

/-- Staging always appends exactly the built call record to the
call-record store, whatever the wallet branch does. -/
theorem stage_callLogs (db : DB) (agent : Agent) (cost : ℚ) (cl : CallLog)
    (sid : String) (dur : ℤ) :
    (stage db agent cost cl sid dur).callLogs = db.callLogs ++ [cl] := by
  unfold stage
  split
  · split <;> rfl
  · rfl

/-- Staging never touches the agent directory. -/
theorem stage_agents (db : DB) (agent : Agent) (cost : ℚ) (cl : CallLog)
    (sid : String) (dur : ℤ) :
    (stage db agent cost cl sid dur).agents = db.agents := by
  unfold stage
  split
  · split <;> rfl
  · rfl

/-- The identifier of the built call record is the session id. -/
theorem buildCallLog_id (ext : Ext) (p : SessionReportPayload)
    (agent : Agent) (uid : Option String) :
    (buildCallLog ext p agent uid).id = p.session_id := rfl

/-- Balance update of the wallet keyed by `wid` commutes with
looking the wallet up by `wid` (wallet ids are untouched). -/
theorem find?_wallet_update (l : List Wallet) (wid : String) (bal : ℚ) :
    (l.map (fun w =>
        if w.wallet_id == wid then { w with balance := some bal } else w)).find?
        (fun w => w.wallet_id == wid)
      = (l.find? (fun w => w.wallet_id == wid)).map
        (fun w => { w with balance := some bal }) := by
  induction l with
  | nil => rfl
  | cons hd tl ih =>
    simp only [List.map_cons]
    by_cases h : (hd.wallet_id == wid) = true
    · have h2 : (({ hd with balance := some bal } : Wallet).wallet_id == wid) = true := h
      rw [if_pos h, List.find?_cons_of_pos (p := fun (w : Wallet) => w.wallet_id == wid) _ h2,
        List.find?_cons_of_pos (p := fun (w : Wallet) => w.wallet_id == wid) _ h]
      rfl
    · rw [if_neg h, List.find?_cons_of_neg (p := fun (w : Wallet) => w.wallet_id == wid) _ h,
        List.find?_cons_of_neg (p := fun (w : Wallet) => w.wallet_id == wid) _ h, ih]

/-! ### Claim theorems -/

/-- C1: re-delivering an event whose session id already has a call
record — caught by the advisory pre-check or by the uniqueness violation
surfaced at commit time — returns exactly the duplicate outcome carrying
the session id and leaves the whole store unchanged, and ingestion
preserves uniqueness of call-record session ids.  The second part pins
the response of the commit-reaching path: pre-check missed, agent
resolved, and the commit raising the uniqueness violation. -/
theorem c1_idempotence (ext : Ext) (fault : CommitFault) (db : DB)
    (p : SessionReportPayload) :
    ((db.callLogs.find? (fun cl => cl.id == p.session_id)).isSome = true →
      ingest_session_report ext fault db p = (.duplicate p.session_id, db))
    ∧ (∀ agent : Agent,
      db.callLogs.find? (fun cl => cl.id == p.session_id) = none →
      resolveAgent db.agents p.agent_id p.agent_name
        (jwtStep ext.decodeSegment p.user_id p.tenant_id).2 = some agent →
      ingest_session_report ext .integrity db p
        = (.duplicate p.session_id, db))
    ∧ ((db.callLogs.map (fun cl => cl.id)).Nodup →
      ((ingest_session_report ext fault db p).2.callLogs.map
        (fun cl => cl.id)).Nodup) := by
  refine ⟨?_, ?_, ?_⟩
  · intro h
    obtain ⟨c, hc⟩ := Option.isSome_iff_exists.mp h
    simp [ingest_session_report, hc]
  · intro agent hf hr
    simp [ingest_session_report, hf, hr]
  · intro hn
    cases hf : db.callLogs.find? (fun cl => cl.id == p.session_id) with
    | some c => simpa [ingest_session_report, hf] using hn
    | none =>
      cases hr : resolveAgent db.agents p.agent_id p.agent_name
          (jwtStep ext.decodeSegment p.user_id p.tenant_id).2 with
      | none => simpa [ingest_session_report, hf, hr] using hn
      | some a =>
        cases fault with
        | integrity => simpa [ingest_session_report, hf, hr] using hn
        | otherError => simpa [ingest_session_report, hf, hr] using hn
        | ok =>
          have hstage := stage_callLogs db a
            (ext.calculate_call_cost (pyTrunc p.duration_seconds))
            (buildCallLog ext p a (jwtStep ext.decodeSegment p.user_id p.tenant_id).1)
            p.session_id (pyTrunc p.duration_seconds)
          simp only [ingest_session_report, hf, hr]
          rw [hstage, List.map_append, List.nodup_append]
          refine ⟨hn, by simp, ?_⟩
          intro x hx hx2
          simp only [List.map_cons, List.map_nil, List.mem_singleton,
            buildCallLog_id] at hx2
          subst hx2
          obtain ⟨cl, hcl, hid⟩ := List.mem_map.mp hx
          have hne := List.find?_eq_none.mp hf cl hcl
          apply hne
          simp [hid]

/-- C1 witness: the pre-check path (record for "s1" already stored) and
the commit-time path (empty store, agent resolved, integrity fault
raised at commit) both return exactly the duplicate outcome with the
store unchanged, and ids stay unique. -/
theorem c1_idempotence_witness :
    ingest_session_report zeroExt .integrity exDB exPayload
      = (.duplicate "s1", exDB)
    ∧ ingest_session_report zeroExt .integrity exDBempty exPayload125
      = (.duplicate "s1", exDBempty)
    ∧ ((ingest_session_report zeroExt .integrity exDB exPayload).2.callLogs.map
        (fun cl => cl.id)).Nodup := by
  have h1 := c1_idempotence zeroExt .integrity exDB exPayload
  have h2 := c1_idempotence zeroExt .integrity exDBempty exPayload125
  exact ⟨h1.1 rfl, h2.2.1 exAgent rfl rfl, h1.2.2 (by decide)⟩

/-- C2: for a successfully ingested event whose resolved agent has a
wallet present in the ledger store, the wallet balance is debited by
exactly the computed cost, the persisted call record carries that cost,
and exactly one deduction transaction is appended whose amount is the
negated cost and whose reference id is the session id. -/
theorem c2_ledger_consistency (ext : Ext) (db : DB)
    (p : SessionReportPayload) (agent : Agent) (w : Wallet)
    (hdup : db.callLogs.find? (fun cl => cl.id == p.session_id) = none)
    (hres : resolveAgent db.agents p.agent_id p.agent_name
      (jwtStep ext.decodeSegment p.user_id p.tenant_id).2 = some agent)
    (hwid : strTruthy agent.wallet_id = true)
    (hw : db.wallets.find? (fun x => x.wallet_id == agent.wallet_id.getD "")
      = some w) :
    (ingest_session_report ext .ok db p).1
      = .ingested p.session_id agent.agent_id
        (ext.calculate_call_cost (pyTrunc p.duration_seconds))
    ∧ (ingest_session_report ext .ok db p).2.callLogs
      = db.callLogs ++ [buildCallLog ext p agent
          (jwtStep ext.decodeSegment p.user_id p.tenant_id).1]
    ∧ (buildCallLog ext p agent
        (jwtStep ext.decodeSegment p.user_id p.tenant_id).1).cost_euros
      = ext.calculate_call_cost (pyTrunc p.duration_seconds)
    ∧ (ingest_session_report ext .ok db p).2.wallets.find?
        (fun x => x.wallet_id == agent.wallet_id.getD "")
      = some { w with balance := some (w.balance.getD 0
          - ext.calculate_call_cost (pyTrunc p.duration_seconds)) }
    ∧ (ingest_session_report ext .ok db p).2.transactions
      = db.transactions ++
        [{ wallet_id := w.wallet_id
           tenant_id := agent.tenant_id
           type := "deduction"
           amount_euros := -(ext.calculate_call_cost (pyTrunc p.duration_seconds))
           description := "Call " ++ sidSlice p.session_id ++ "... ("
             ++ toString (pyTrunc p.duration_seconds) ++ "s)"
           reference_id := p.session_id }] := by
  have hing : ingest_session_report ext .ok db p
      = (.ingested p.session_id agent.agent_id
          (ext.calculate_call_cost (pyTrunc p.duration_seconds)),
        stage db agent (ext.calculate_call_cost (pyTrunc p.duration_seconds))
          (buildCallLog ext p agent
            (jwtStep ext.decodeSegment p.user_id p.tenant_id).1)
          p.session_id (pyTrunc p.duration_seconds)) := by
    simp [ingest_session_report, hdup, hres]
  have hstage : stage db agent
      (ext.calculate_call_cost (pyTrunc p.duration_seconds))
      (buildCallLog ext p agent
        (jwtStep ext.decodeSegment p.user_id p.tenant_id).1)
      p.session_id (pyTrunc p.duration_seconds)
      = { agents := db.agents
          callLogs := db.callLogs ++ [buildCallLog ext p agent
            (jwtStep ext.decodeSegment p.user_id p.tenant_id).1]
          wallets := db.wallets.map (fun x =>
            if x.wallet_id == agent.wallet_id.getD "" then
              { x with balance := some (w.balance.getD 0
                  - ext.calculate_call_cost (pyTrunc p.duration_seconds)) }
            else x)
          transactions := db.transactions ++
            [{ wallet_id := w.wallet_id
               tenant_id := agent.tenant_id
               type := "deduction"
               amount_euros := -(ext.calculate_call_cost (pyTrunc p.duration_seconds))
               description := "Call " ++ sidSlice p.session_id ++ "... ("
                 ++ toString (pyTrunc p.duration_seconds) ++ "s)"
               reference_id := p.session_id }] } := by
    unfold stage
    rw [if_pos hwid, hw]
  refine ⟨?_, ?_, rfl, ?_, ?_⟩
  · rw [hing]
  · rw [hing, hstage]
  · rw [hing, hstage]
    have := find?_wallet_update db.wallets (agent.wallet_id.getD "")
      (w.balance.getD 0 - ext.calculate_call_cost (pyTrunc p.duration_seconds))
    simp only [this, hw]
    rfl
  · rw [hing, hstage]

/-- C2 witness: the spec's worked example — 125 seconds at 0.25
euros/minute ingested against a wallet holding 10 euros leaves 455/48
euros and appends the matching deduction of 25/48 euros. -/
theorem c2_ledger_consistency_witness :
    (ingest_session_report priceExt .ok exDBempty exPayload125).1
      = .ingested "s1" "a1" (25 / 48)
    ∧ (ingest_session_report priceExt .ok exDBempty exPayload125).2.wallets.find?
        (fun x => x.wallet_id == "w1")
      = some { wallet_id := "w1", tenant_id := "t1", balance := some (455 / 48) }
    ∧ (ingest_session_report priceExt .ok exDBempty exPayload125).2.transactions
      = [{ wallet_id := "w1"
           tenant_id := "t1"
           type := "deduction"
           amount_euros := -(25 / 48)
           description := "Call s1... (125s)"
           reference_id := "s1" }] := by
  have h := c2_ledger_consistency priceExt exDBempty exPayload125 exAgent
    exWallet rfl rfl rfl rfl
  have hp : pyTrunc exPayload125.duration_seconds = 125 := by decide
  have hc : priceExt.calculate_call_cost 125 = 25 / 48 := by
    norm_num [priceExt]
  have hb : exWallet.balance.getD 0 - priceExt.calculate_call_cost 125
      = 455 / 48 := by
    norm_num [exWallet, priceExt]
  refine ⟨?_, ?_, ?_⟩
  · rw [h.1, hp, hc]
    rfl
  · rw [show (fun (x : Wallet) => x.wallet_id == "w1")
        = (fun (x : Wallet) => x.wallet_id == exAgent.wallet_id.getD "") from rfl,
      h.2.2.2.1, hp, hb]
    rfl
  · rw [h.2.2.2.2, hp, hc]
    rfl

/-- C3: with any persistence error other than a uniqueness violation at
commit time, the transaction is rolled back fully — the store is exactly
as before — and every event that reaches the commit (pre-check missed,
agent resolved) receives exactly the retryable internal-class 500 error;
events that never reach the commit exit earlier as duplicate or
not-found. -/
theorem c3_rollback_on_other_persistence_error (ext : Ext) (db : DB)
    (p : SessionReportPayload) :
    (ingest_session_report ext .otherError db p).2 = db
    ∧ (∀ agent : Agent,
      db.callLogs.find? (fun cl => cl.id == p.session_id) = none →
      resolveAgent db.agents p.agent_id p.agent_name
        (jwtStep ext.decodeSegment p.user_id p.tenant_id).2 = some agent →
      ingest_session_report ext .otherError db p = (.serverError, db))
    ∧ ((ingest_session_report ext .otherError db p).1 = .serverError ∨
      (ingest_session_report ext .otherError db p).1 = .duplicate p.session_id ∨
      (ingest_session_report ext .otherError db p).1 = .notFound p.session_id) := by
  refine ⟨?_, ?_, ?_⟩
  · cases hf : db.callLogs.find? (fun cl => cl.id == p.session_id) with
    | some c => simp [ingest_session_report, hf]
    | none =>
      cases hr : resolveAgent db.agents p.agent_id p.agent_name
          (jwtStep ext.decodeSegment p.user_id p.tenant_id).2 with
      | none => simp [ingest_session_report, hf, hr]
      | some a => simp [ingest_session_report, hf, hr]
  · intro agent hf hr
    simp [ingest_session_report, hf, hr]
  · cases hf : db.callLogs.find? (fun cl => cl.id == p.session_id) with
    | some c => simp [ingest_session_report, hf]
    | none =>
      cases hr : resolveAgent db.agents p.agent_id p.agent_name
          (jwtStep ext.decodeSegment p.user_id p.tenant_id).2 with
      | none => simp [ingest_session_report, hf, hr]
      | some a => simp [ingest_session_report, hf, hr]

/-- C3 witness: a commit-reaching event (empty store, agent "a1"
resolved) hit by a non-uniqueness persistence error returns exactly the
500 error with the store unchanged. -/
theorem c3_rollback_on_other_persistence_error_witness :
    ingest_session_report zeroExt .otherError exDBempty exPayload125
      = (.serverError, exDBempty) :=
  (c3_rollback_on_other_persistence_error zeroExt exDBempty
    exPayload125).2.1 exAgent rfl rfl

/-- C4: the resolver stops at the first success of the ordered chain — a
successful exact agent-id lookup wins over everything later; with the
agent-id step failed, a truthy agent name and tenant id make the
name-AND-tenant lookup decisive (its result belongs to that tenant), and
the name-only lookup is consulted only after the name-and-tenant lookup
failed. -/
theorem c4_resolution_fallback_order (agents : List Agent)
    (agent_id agent_name tenant_id : Option String) :
    (∀ a, agentIdLookup agents agent_id = some a →
      resolveAgent agents agent_id agent_name tenant_id = some a)
    ∧ (∀ nm t a, agentIdLookup agents agent_id = none →
      agent_name = some nm → strTruthy (some nm) = true →
      tenant_id = some t →
      nameTenantLookup agents agent_name tenant_id = some a →
      resolveAgent agents agent_id agent_name tenant_id = some a
        ∧ a.agent_name = nm ∧ a.tenant_id = t)
    ∧ (∀ nm a, agentIdLookup agents agent_id = none →
      agent_name = some nm → strTruthy (some nm) = true →
      nameTenantLookup agents agent_name tenant_id = none →
      nameLookup agents agent_name = some a →
      resolveAgent agents agent_id agent_name tenant_id = some a) := by
  refine ⟨?_, ?_, ?_⟩
  · intro a h
    unfold resolveAgent
    rw [h]
  · intro nm t a hid hnm hnmT htid hnt
    subst hnm
    subst htid
    refine ⟨?_, ?_⟩
    · simp only [resolveAgent, hid, hnmT, if_true, hnt]
    · unfold nameTenantLookup at hnt
      by_cases ht : strTruthy (some t) = true
      · rw [if_pos ht] at hnt
        have hfound := List.find?_some hnt
        simp only [Option.getD_some, Bool.and_eq_true, beq_iff_eq] at hfound
        exact hfound
      · rw [if_neg ht] at hnt
        cases hnt
  · intro nm a hid hnm hnmT hnt hnl
    subst hnm
    simp only [resolveAgent, hid, hnmT, if_true, hnt, hnl]

/-- C4 witness: in a directory listing the same-named agent of tenant
"t2" first, the agent-id match, the name-and-tenant match for tenant
"t1", and the name-only fallback (with an unknown tenant "t3") each pick
the documented agent. -/
theorem c4_resolution_fallback_order_witness :
    resolveAgent [exAgentOtherTenant, exAgent] (some "a1") (some "alpha") none
      = some exAgent
    ∧ resolveAgent [exAgentOtherTenant, exAgent] none (some "alpha") (some "t1")
      = some exAgent
    ∧ resolveAgent [exAgentOtherTenant, exAgent] none (some "alpha") (some "t3")
      = some exAgentOtherTenant := by
  refine ⟨?_, ?_, ?_⟩
  · exact (c4_resolution_fallback_order [exAgentOtherTenant, exAgent]
      (some "a1") (some "alpha") none).1 exAgent rfl
  · exact ((c4_resolution_fallback_order [exAgentOtherTenant, exAgent]
      none (some "alpha") (some "t1")).2.1 "alpha" "t1" exAgent rfl rfl rfl rfl
      rfl).1
  · exact (c4_resolution_fallback_order [exAgentOtherTenant, exAgent]
      none (some "alpha") (some "t3")).2.2 "alpha" exAgentOtherTenant rfl rfl
      rfl rfl rfl

/-- C5 counterexample: a tenant whose only directory entry is an
inactive agent.  The last-resort tenant fallback still selects it, so the
resolver does not select an "active" agent as the claim states. -/
theorem c5_counterexample_inactive_agent_selected :
    resolveAgent [exInactiveAgent] none none (some "t9")
      = some exInactiveAgent
    ∧ exInactiveAgent.is_active = false :=
  ⟨rfl, rfl⟩

/-- C5 amended: when neither the agent-id step nor the name steps
produce an agent and a tenant id is known, the resolver selects the first
agent of that tenant regardless of its active flag (the selected agent
does belong to that tenant — no cross-tenant fallback); and when the
whole chain fails the request fails with the named not-found error
carrying the session id, with the store unchanged. -/
theorem c5_tenant_fallback_and_named_failure :
    (∀ (agents : List Agent) (agent_id agent_name tenant_id : Option String)
      (t : String) (a : Agent),
      agentIdLookup agents agent_id = none →
      (strTruthy agent_name = false ∨
        (nameTenantLookup agents agent_name tenant_id = none ∧
          nameLookup agents agent_name = none)) →
      tenant_id = some t →
      tenantFallback agents tenant_id = some a →
      resolveAgent agents agent_id agent_name tenant_id = some a
        ∧ a.tenant_id = t)
    ∧ (∀ (ext : Ext) (fault : CommitFault) (db : DB)
      (p : SessionReportPayload),
      db.callLogs.find? (fun cl => cl.id == p.session_id) = none →
      resolveAgent db.agents p.agent_id p.agent_name
        (jwtStep ext.decodeSegment p.user_id p.tenant_id).2 = none →
      ingest_session_report ext fault db p = (.notFound p.session_id, db)) := by
  constructor
  · intro agents agent_id agent_name tenant_id t a hid hsteps htid hfb
    have hmem : a.tenant_id = t := by
      unfold tenantFallback at hfb
      subst htid
      by_cases ht : strTruthy (some t) = true
      · rw [if_pos ht] at hfb
        have hfound := List.find?_some hfb
        simpa using hfound
      · rw [if_neg ht] at hfb
        cases hfb
    refine ⟨?_, hmem⟩
    cases hsteps with
    | inl hnm =>
      simp only [resolveAgent, hid, hnm, Bool.false_eq_true, if_false, hfb]
    | inr hpair =>
      by_cases hnm : strTruthy agent_name = true
      · simp only [resolveAgent, hid, hnm, if_true, hpair.1, hpair.2, hfb]
      · simp only [resolveAgent, hid, if_neg hnm, hfb]
  · intro ext fault db p hdup hres
    cases fault <;> simp [ingest_session_report, hdup, hres]

/-- C5 witness: the inactive agent of tenant "t9" is selected by the
fallback and belongs to "t9"; a session naming only the unknown tenant
"tX" fails with the not-found outcome and an unchanged store. -/
theorem c5_tenant_fallback_and_named_failure_witness :
    resolveAgent [exInactiveAgent] none none (some "t9")
      = some exInactiveAgent
    ∧ exInactiveAgent.tenant_id = "t9"
    ∧ ingest_session_report zeroExt .ok exDBempty
        { session_id := "s2", tenant_id := some "tX" }
      = (.notFound "s2", exDBempty) := by
  have h1 := c5_tenant_fallback_and_named_failure.1 [exInactiveAgent]
    none none (some "t9") "t9" exInactiveAgent rfl (Or.inl rfl) rfl rfl
  have h2 := c5_tenant_fallback_and_named_failure.2 zeroExt .ok exDBempty
    { session_id := "s2", tenant_id := some "tX" } rfl rfl
  exact ⟨h1.1, h1.2, h2⟩

/-- C6: signal extraction is total (it is a Lean function, so no
exception can propagate) and degrades to the documented defaults: a
missing or non-truthy or non-object analysis yields all defaults, and a
`metrics` / `business_signals` entry that is absent, null or not an
object leaves every signal of that group at its default. -/
theorem c6_defensive_signal_extraction :
    (extractSignals none = defaultSignals)
    ∧ (∀ j : Json, (j.isTruthy && j.isObj) = false →
      extractSignals (some j) = defaultSignals)
    ∧ (∀ kvs : List (String × Json),
      (∀ v, jsonLookup kvs "metrics" = some v → v.isObj = false) →
      (extractSignals (some (.obj kvs))).frustration_velocity = Json.null
      ∧ (extractSignals (some (.obj kvs))).agent_iq = Json.null
      ∧ (extractSignals (some (.obj kvs))).avg_sentiment = Json.null
      ∧ (extractSignals (some (.obj kvs))).correction_count = Json.num 0)
    ∧ (∀ kvs : List (String × Json),
      (∀ v, jsonLookup kvs "business_signals" = some v → v.isObj = false) →
      (extractSignals (some (.obj kvs))).sentiment_score = Json.null
      ∧ (extractSignals (some (.obj kvs))).is_churn_risk = Json.bool false
      ∧ (extractSignals (some (.obj kvs))).is_hot_lead = Json.bool false
      ∧ (extractSignals (some (.obj kvs))).priority_level
        = Json.str "NORMAL") := by
  refine ⟨rfl, ?_, ?_, ?_⟩
  · intro j h
    simp only [extractSignals, h, Bool.false_eq_true, if_false]
  · intro kvs h
    cases kvs with
    | nil => exact ⟨rfl, rfl, rfl, rfl⟩
    | cons hd tl =>
      have hcond : ((Json.obj (hd :: tl)).isTruthy
          && (Json.obj (hd :: tl)).isObj) = true := rfl
      simp only [extractSignals, hcond, if_true]
      cases hm : jsonLookup (hd :: tl) "metrics" with
      | none =>
        have hpg : pyGetD (hd :: tl) "metrics" (.obj []) = .obj [] := by
          simp [pyGetD, hm]
        rw [hpg]
        cases hbv : pyGetD (hd :: tl) "business_signals" (.obj []) <;>
          exact ⟨rfl, rfl, rfl, rfl⟩
      | some v =>
        have hv := h v hm
        have hpg : pyGetD (hd :: tl) "metrics" (.obj []) = v := by
          simp [pyGetD, hm]
        rw [hpg]
        cases v <;> first
          | (cases hbv : pyGetD (hd :: tl) "business_signals" (.obj []) <;>
              exact ⟨rfl, rfl, rfl, rfl⟩)
          | simp [Json.isObj] at hv
  · intro kvs h
    cases kvs with
    | nil => exact ⟨rfl, rfl, rfl, rfl⟩
    | cons hd tl =>
      have hcond : ((Json.obj (hd :: tl)).isTruthy
          && (Json.obj (hd :: tl)).isObj) = true := rfl
      simp only [extractSignals, hcond, if_true]
      cases hb : jsonLookup (hd :: tl) "business_signals" with
      | none =>
        have hpg : pyGetD (hd :: tl) "business_signals" (.obj []) = .obj [] := by
          simp [pyGetD, hb]
        rw [hpg]
        cases hmv : pyGetD (hd :: tl) "metrics" (.obj []) <;>
          exact ⟨rfl, rfl, rfl, rfl⟩
      | some v =>
        have hv := h v hb
        have hpg : pyGetD (hd :: tl) "business_signals" (.obj []) = v := by
          simp [pyGetD, hb]
        rw [hpg]
        cases v <;> first
          | (cases hmv : pyGetD (hd :: tl) "metrics" (.obj []) <;>
              exact ⟨rfl, rfl, rfl, rfl⟩)
          | simp [Json.isObj] at hv

/-- C6 witness: a numeric analysis value, and an analysis whose metrics
entry is a number and whose business-signals entry is null, all yield
the documented defaults. -/
theorem c6_defensive_signal_extraction_witness :
    extractSignals none = defaultSignals
    ∧ extractSignals (some (.num 7)) = defaultSignals
    ∧ (extractSignals (some (.obj [("metrics", Json.num 3),
        ("business_signals", Json.null)]))).correction_count = Json.num 0
    ∧ (extractSignals (some (.obj [("metrics", Json.num 3),
        ("business_signals", Json.null)]))).frustration_velocity = Json.null
    ∧ (extractSignals (some (.obj [("metrics", Json.num 3),
        ("business_signals", Json.null)]))).is_churn_risk = Json.bool false
    ∧ (extractSignals (some (.obj [("metrics", Json.num 3),
        ("business_signals", Json.null)]))).is_hot_lead = Json.bool false
    ∧ (extractSignals (some (.obj [("metrics", Json.num 3),
        ("business_signals", Json.null)]))).priority_level
      = Json.str "NORMAL" := by
  have h := c6_defensive_signal_extraction
  have hm := h.2.2.1 [("metrics", Json.num 3), ("business_signals", Json.null)]
    (fun v hv => by
      have h2 : some (Json.num 3) = some v := hv
      cases h2
      rfl)
  have hb := h.2.2.2 [("metrics", Json.num 3), ("business_signals", Json.null)]
    (fun v hv => by
      have h2 : some Json.null = some v := hv
      cases h2
      rfl)
  exact ⟨h.1, h.2.1 (.num 7) rfl, hm.2.2.2, hm.1, hb.2.1, hb.2.2.1, hb.2.2.2⟩

/-- C7: the claims extractor treats the identity field as a token only
when it contains "." and its length exceeds 50 (otherwise the input
passes through untouched, whatever the decoder would say); a decode
failure is silent, returning the original field and tenant id; a truthy
supplied tenant id is never overridden; and a truthy decoded tenant
claim is adopted when the payload carried no tenant id. -/
theorem c7_claims_extractor_contract :
    (∀ (d : String → Option JwtClaims) (u : String) (t : Option String),
      containsDot u.data = false ∨ u.length ≤ 50 →
      jwtStep d (some u) t = (some u, t))
    ∧ (∀ (d : String → Option JwtClaims) (u : String) (t : Option String),
      d (String.mk (b64pad ((splitDot u.data)[1]?.getD []))) = none →
      jwtStep d (some u) t = (some u, t))
    ∧ (∀ (d : String → Option JwtClaims) (u : String) (ts : String),
      strTruthy (some ts) = true →
      (jwtStep d (some u) (some ts)).2 = some ts)
    ∧ (∀ (d : String → Option JwtClaims) (u : String) (c : JwtClaims)
      (rt : String),
      containsDot u.data = true → 50 < u.length →
      d (String.mk (b64pad ((splitDot u.data)[1]?.getD []))) = some c →
      c.tenant_id = some rt → strTruthy (some rt) = true →
      (jwtStep d (some u) none).2 = some rt) := by
  refine ⟨?_, ?_, ?_, ?_⟩
  · intro d u t h
    have hcond : (strTruthy (some u) && containsDot u.data
        && decide (50 < u.length)) = false := by
      rcases h with h | h
      · simp [h]
      · simp [Nat.not_lt.mpr h]
    simp only [jwtStep, hcond, Bool.false_eq_true, if_false]
  · intro d u t hd
    by_cases hcond : (strTruthy (some u) && containsDot u.data
        && decide (50 < u.length)) = true
    · simp only [jwtStep, hcond, if_true]
      by_cases hp : 2 ≤ (splitDot u.data).length
      · simp only [if_pos hp, hd]
      · simp only [if_neg hp]
    · rw [Bool.not_eq_true] at hcond
      simp only [jwtStep, hcond, Bool.false_eq_true, if_false]
  · intro d u ts hts
    by_cases hcond : (strTruthy (some u) && containsDot u.data
        && decide (50 < u.length)) = true
    · simp only [jwtStep, hcond, if_true]
      by_cases hp : 2 ≤ (splitDot u.data).length
      · simp only [if_pos hp]
        cases hdec : d (String.mk (b64pad ((splitDot u.data)[1]?.getD []))) with
        | none => rfl
        | some claims =>
          cases hct : claims.tenant_id with
          | none => simp [hct]
          | some rt => simp [hct, hts]
      · simp only [if_neg hp]
    · rw [Bool.not_eq_true] at hcond
      simp only [jwtStep, hcond, Bool.false_eq_true, if_false]
  · intro d u c rt hdot hlen hdec hct hrt
    have hne : strTruthy (some u) = true := by
      cases hu : u.data with
      | nil =>
        have : u.length = 0 := by
          show u.data.length = 0
          rw [hu]
          rfl
        omega
      | cons a as => simp [strTruthy, hu]
    have hcond : (strTruthy (some u) && containsDot u.data
        && decide (50 < u.length)) = true := by
      simp [hne, hdot, hlen]
    have hp : 2 ≤ (splitDot u.data).length := splitDot_length_of_dot u.data hdot
    simp only [jwtStep, hcond, if_true, if_pos hp, hdec, hct, hrt]
    simp [strTruthy, hrt]

/-- C7 witness: a short user id passes through even with an
always-succeeding decoder; a failing decode on a long token is silent; a
supplied tenant "t-explicit" survives a successful decode; and with no
supplied tenant the decoded tenant "tJ" is adopted. -/
theorem c7_claims_extractor_contract_witness :
    jwtStep jwtOkDecode (some "bob") none = (some "bob", none)
    ∧ jwtStep (fun _ => none) (some longUid) (some "tK")
      = (some longUid, some "tK")
    ∧ (jwtStep jwtOkDecode (some longUid) (some "t-explicit")).2
      = some "t-explicit"
    ∧ (jwtStep jwtOkDecode (some longUid) none).2 = some "tJ" := by
  have h := c7_claims_extractor_contract
  refine ⟨?_, ?_, ?_, ?_⟩
  · exact h.1 jwtOkDecode "bob" none (Or.inl rfl)
  · exact h.2.1 (fun _ => none) longUid (some "tK") rfl
  · exact h.2.2.1 jwtOkDecode longUid "t-explicit" rfl
  · exact h.2.2.2 jwtOkDecode longUid
      { sub := some "real-user", tenant_id := some "tJ" } "tJ" rfl
      (by decide) rfl rfl rfl

/-- C8 counterexample: an event with an EMPTY session id is not
rejected — it passes pydantic validation (`session_id : str` only
requires a present string) and is ingested with full side effects. -/
theorem c8_counterexample_empty_session_id_accepted :
    validatePayload emptySidWire = some emptySidPayload
    ∧ (ingest_session_report zeroExt .ok exDBempty emptySidPayload).1
      = .ingested "" "a1" 0
    ∧ (ingest_session_report zeroExt .ok exDBempty
        emptySidPayload).2.callLogs.length = 1 :=
  ⟨rfl, rfl, rfl⟩

/-- C8 amended: validation at the received stage rejects an event whose
session id field is absent or null before any processing; a present
string session id — including the empty string — is accepted as-is, and
every other field is optional with its documented default. -/
theorem c8_structural_validation (w : SessionReportWire) :
    ((w.session_id = none ∨ w.session_id = some none) →
      validatePayload w = none)
    ∧ (∀ (sid : String) (pl : SessionReportPayload),
      w.session_id = some (some sid) →
      validatePayload w = some pl → pl.session_id = sid)
    ∧ (∀ sid : String,
      validatePayload { session_id := some (some sid) }
        = some { session_id := sid }) := by
  refine ⟨?_, ?_, ?_⟩
  · intro h
    rcases h with h | h <;> simp [validatePayload, h]
  · intro sid pl hs hv
    simp only [validatePayload, hs] at hv
    by_cases ha : (match w.analysis with
        | some (some j) => j.isObj
        | _ => true) = true
    · rw [if_pos ha] at hv
      cases hv
      rfl
    · rw [if_neg ha] at hv
      cases hv
  · intro sid
    rfl

/-- C8 amended-claim witness: a null session id is rejected; a present
session id "sX" with everything else absent validates to the
all-defaults payload. -/
theorem c8_structural_validation_witness :
    validatePayload { session_id := some none, user_id := some (some "u") }
      = none
    ∧ validatePayload { session_id := some (some "sX") }
      = some { session_id := "sX" } := by
  refine ⟨?_, ?_⟩
  · exact (c8_structural_validation
      { session_id := some none, user_id := some (some "u") }).1 (Or.inr rfl)
  · exact (c8_structural_validation
      { session_id := some (some "sX") }).2.2 "sX"

/-- C9: when a supplied start or end timestamp fails ISO-8601 parsing
(after Z-normalization), or no start timestamp is supplied, ingestion
still proceeds to the ingested outcome and the persisted call record's
start time is the ingestion time. -/
theorem c9_timestamp_degradation (ext : Ext) (db : DB)
    (p : SessionReportPayload) (agent : Agent)
    (hdup : db.callLogs.find? (fun cl => cl.id == p.session_id) = none)
    (hres : resolveAgent db.agents p.agent_id p.agent_name
      (jwtStep ext.decodeSegment p.user_id p.tenant_id).2 = some agent)
    (hbad : (strTruthy p.start_time = true ∧
        ext.fromisoformat (normTs (p.start_time.getD "")) = none)
      ∨ (strTruthy p.end_time = true ∧
        ext.fromisoformat (normTs (p.end_time.getD "")) = none)
      ∨ strTruthy p.start_time = false) :
    (ingest_session_report ext .ok db p).1
      = .ingested p.session_id agent.agent_id
        (ext.calculate_call_cost (pyTrunc p.duration_seconds))
    ∧ (ingest_session_report ext .ok db p).2.callLogs
      = db.callLogs ++ [buildCallLog ext p agent
          (jwtStep ext.decodeSegment p.user_id p.tenant_id).1]
    ∧ (buildCallLog ext p agent
        (jwtStep ext.decodeSegment p.user_id p.tenant_id).1).start_time
      = ext.utcnow := by
  have hing : ingest_session_report ext .ok db p
      = (.ingested p.session_id agent.agent_id
          (ext.calculate_call_cost (pyTrunc p.duration_seconds)),
        stage db agent (ext.calculate_call_cost (pyTrunc p.duration_seconds))
          (buildCallLog ext p agent
            (jwtStep ext.decodeSegment p.user_id p.tenant_id).1)
          p.session_id (pyTrunc p.duration_seconds)) := by
    simp [ingest_session_report, hdup, hres]
  have hpt : (parseTimes ext.fromisoformat ext.utcnow
      p.start_time p.end_time).1 = ext.utcnow := by
    unfold parseTimes
    rcases hbad with ⟨h1, h2⟩ | ⟨h1, h2⟩ | h1
    · simp [h1, h2]
    · by_cases hs : strTruthy p.start_time = true
      · cases hsp : ext.fromisoformat (normTs (p.start_time.getD "")) with
        | none => simp [hs, hsp]
        | some v => simp [hs, hsp, h1, h2]
      · rw [Bool.not_eq_true] at hs
        simp [hs, h1, h2]
    · by_cases he : strTruthy p.end_time = true
      · cases hep : ext.fromisoformat (normTs (p.end_time.getD "")) with
        | none => simp [h1, he, hep]
        | some v => simp [h1, he, hep]
      · rw [Bool.not_eq_true] at he
        simp [h1, he]
  refine ⟨?_, ?_, ?_⟩
  · rw [hing]
  · rw [hing]
    exact stage_callLogs db agent _ _ p.session_id _
  · show (parseTimes ext.fromisoformat ext.utcnow
      p.start_time p.end_time).1 = ext.utcnow
    exact hpt

/-- C9 witness: an unparseable start timestamp (every parse fails under
`zeroExt`) still yields the ingested outcome, with the record's start
time equal to the ingestion time. -/
theorem c9_timestamp_degradation_witness :
    (ingest_session_report zeroExt .ok exDBempty exPayloadBadTs).1
      = .ingested "s1" "a1" 0
    ∧ (buildCallLog zeroExt exPayloadBadTs exAgent
        (jwtStep zeroExt.decodeSegment exPayloadBadTs.user_id
          exPayloadBadTs.tenant_id).1).start_time
      = zeroExt.utcnow := by
  have h := c9_timestamp_degradation zeroExt exDBempty exPayloadBadTs exAgent
    rfl rfl (Or.inl ⟨rfl, rfl⟩)
  exact ⟨h.1, h.2.2⟩

/-- C10: the persisted caller id is the event's caller id when that is
truthy and otherwise the post-claims-extraction user id; a successful
decode with a truthy `sub` makes that user id the decoded `sub`; an
absent wire user id validates to the default "anonymous", which the
claims step passes through unchanged; and the ingested call record is
exactly the one built from the post-claims-extraction user id. -/
theorem c10_caller_id_fallback :
    (∀ (ext : Ext) (p : SessionReportPayload) (agent : Agent)
      (uid : Option String), strTruthy p.caller_id = true →
      (buildCallLog ext p agent uid).caller_id = p.caller_id)
    ∧ (∀ (ext : Ext) (p : SessionReportPayload) (agent : Agent)
      (uid : Option String), strTruthy p.caller_id = false →
      (buildCallLog ext p agent uid).caller_id = uid)
    ∧ (∀ (d : String → Option JwtClaims) (u : String) (t : Option String)
      (c : JwtClaims) (s : String),
      containsDot u.data = true → 50 < u.length →
      d (String.mk (b64pad ((splitDot u.data)[1]?.getD []))) = some c →
      c.sub = some s → strTruthy (some s) = true →
      (jwtStep d (some u) t).1 = some s)
    ∧ (∀ (w : SessionReportWire) (sid : String) (pl : SessionReportPayload),
      w.user_id = none → w.session_id = some (some sid) →
      validatePayload w = some pl → pl.user_id = some "anonymous")
    ∧ (∀ (d : String → Option JwtClaims) (t : Option String),
      jwtStep d (some "anonymous") t = (some "anonymous", t))
    ∧ (∀ (ext : Ext) (db : DB) (p : SessionReportPayload) (agent : Agent),
      db.callLogs.find? (fun cl => cl.id == p.session_id) = none →
      resolveAgent db.agents p.agent_id p.agent_name
        (jwtStep ext.decodeSegment p.user_id p.tenant_id).2 = some agent →
      (ingest_session_report ext .ok db p).2.callLogs
        = db.callLogs ++ [buildCallLog ext p agent
            (jwtStep ext.decodeSegment p.user_id p.tenant_id).1]) := by
  refine ⟨?_, ?_, ?_, ?_, ?_, ?_⟩
  · intro ext p agent uid h
    show pyOr p.caller_id uid = p.caller_id
    simp [pyOr, h]
  · intro ext p agent uid h
    show pyOr p.caller_id uid = uid
    simp [pyOr, h]
  · intro d u t c s hdot hlen hdec hsub hs
    have hne : strTruthy (some u) = true := by
      cases hu : u.data with
      | nil =>
        have : u.length = 0 := by
          show u.data.length = 0
          rw [hu]
          rfl
        omega
      | cons a as => simp [strTruthy, hu]
    have hcond : (strTruthy (some u) && containsDot u.data
        && decide (50 < u.length)) = true := by
      simp [hne, hdot, hlen]
    have hp : 2 ≤ (splitDot u.data).length := splitDot_length_of_dot u.data hdot
    simp only [jwtStep, hcond, if_true, if_pos hp, hdec, hsub]
    simp [hs]
  · intro w sid pl hu hs hv
    simp only [validatePayload, hs] at hv
    by_cases ha : (match w.analysis with
        | some (some j) => j.isObj
        | _ => true) = true
    · rw [if_pos ha] at hv
      cases hv
      simp [hu]
    · rw [if_neg ha] at hv
      cases hv
  · intro d t
    rfl
  · intro ext db p agent hdup hres
    have hing : ingest_session_report ext .ok db p
        = (.ingested p.session_id agent.agent_id
            (ext.calculate_call_cost (pyTrunc p.duration_seconds)),
          stage db agent (ext.calculate_call_cost (pyTrunc p.duration_seconds))
            (buildCallLog ext p agent
              (jwtStep ext.decodeSegment p.user_id p.tenant_id).1)
            p.session_id (pyTrunc p.duration_seconds)) := by
      simp [ingest_session_report, hdup, hres]
    rw [hing]
    exact stage_callLogs db agent _ _ p.session_id _

/-- C10 witness: a supplied caller id "cX" wins; with no caller id the
user id "u1" is used; the long token decodes to sub "real-user"; an
absent wire user id defaults to "anonymous", which the claims step
leaves untouched; and the concrete ingested record is the built one. -/
theorem c10_caller_id_fallback_witness :
    (buildCallLog zeroExt exPayloadCaller exAgent (some "u1")).caller_id
      = some "cX"
    ∧ (buildCallLog zeroExt exPayload125 exAgent (some "u1")).caller_id
      = some "u1"
    ∧ (jwtStep jwtOkDecode (some longUid) none).1 = some "real-user"
    ∧ ({ session_id := "s7" } : SessionReportPayload).user_id
      = some "anonymous"
    ∧ jwtStep jwtOkDecode (some "anonymous") (some "tZ")
      = (some "anonymous", some "tZ")
    ∧ (ingest_session_report zeroExt .ok exDBempty exPayload125).2.callLogs
      = [buildCallLog zeroExt exPayload125 exAgent (some "anonymous")] := by
  have h := c10_caller_id_fallback
  refine ⟨?_, ?_, ?_, ?_, ?_, ?_⟩
  · exact h.1 zeroExt exPayloadCaller exAgent (some "u1") rfl
  · exact h.2.1 zeroExt exPayload125 exAgent (some "u1") rfl
  · exact h.2.2.1 jwtOkDecode longUid none
      { sub := some "real-user", tenant_id := some "tJ" } "real-user" rfl
      (by decide) rfl rfl rfl
  · exact h.2.2.2.1 { session_id := some (some "s7") } "s7"
      { session_id := "s7" } rfl rfl rfl
  · exact h.2.2.2.2.1 jwtOkDecode (some "tZ")
  · exact h.2.2.2.2.2 zeroExt exDBempty exPayload125 exAgent rfl rfl

end Davinci
